import Mathlib

/-!
Verification of the host-introspection adapter in
lldb/source/Host/posix/HostInfoPosix.cpp.

The functions in that translation unit are shallowly embedded below.
Operating-system collaborators (getenv, gethostname, gethostbyname,
getpwuid_r, getgrgid_r, getgrgid) and the external collaborators named by the
specification (the FileSpec path value type, the llvm textual path helpers,
and the shared-library directory supplied by the host-info base) enter the
model as explicit parameters or as definitions modelled from the spec.
-/

/-- Modelled from the spec: the file-path value type (LLDB FileSpec, outside
src/) is treated as an opaque pair of directory and filename strings. -/
structure FileSpec where
  directory : String
  filename : String
deriving DecidableEq, Repr

/-- Modelled from the spec: FileSpec conversion to bool (operator bool,
outside src/): a path value is present iff its directory or its filename is
non-empty. -/
def FileSpec.toBool (f : FileSpec) : Bool :=
  !f.directory.isEmpty || !f.filename.isEmpty

/-- Modelled from the spec: the textual parent of a POSIX path, obtained by
trimming the trailing path segment (llvm sys path parent_path, outside src/).
The parent of the root directory and of a relative single segment is the
empty string; the parent of an absolute single segment is the root. -/
def parentPath (p : String) : String :=
  let rev := p.data.reverse
  let rest := rev.dropWhile (fun c => c ≠ '/')
  if rest.isEmpty then ""
  else
    let trimmed := rest.dropWhile (fun c => c = '/')
    if trimmed.isEmpty then
      if rest.length = p.data.length then "" else "/"
    else String.mk trimmed.reverse

/-- Modelled from the spec: the trailing segment of a POSIX path (llvm sys
path filename, outside src/); for the root directory the trailing segment is
the root itself. -/
def pathFileName (p : String) : String :=
  let fn := (p.data.reverse.takeWhile (fun c => c ≠ '/')).reverse
  if fn.isEmpty && !p.isEmpty then "/" else String.mk fn

/-- Modelled from the spec: FileSpec construction from a whole path (LLDB
FileSpec SetFile, outside src/) splits the path into its textual parent and
its trailing segment. -/
def FileSpec.ofPath (p : String) : FileSpec :=
  { directory := parentPath p, filename := pathFileName p }

/-- Modelled from the spec: FileSpec GetPath (outside src/) rejoins the
directory and filename components with a path separator when both are
present. -/
def FileSpec.getPath (f : FileSpec) : String :=
  if f.directory.isEmpty then f.filename
  else if f.filename.isEmpty then f.directory
  else if f.directory.data.getLast? = some '/' then f.directory ++ f.filename
  else f.directory ++ "/" ++ f.filename

/-- HostInfoPosix::GetEnvironmentVar. The process environment (::getenv) is
modelled as a map from names to optionally present values; the caller-supplied
output string var is threaded explicitly, so the result pairs the returned
bool with the final contents of var. -/
def GetEnvironmentVar (env : String → Option String) (var_name : String)
    (var : String) : Bool × String :=
  match env var_name with
  | some pvar => (true, pvar)
  | none => (false, var)

/-- HostInfoPosix::GetHostname. The kernel node-name query (::gethostname) is
modelled as an optional string (none = the syscall failed) and forward name
resolution (::gethostbyname) as a map to an optional canonical name. The
caller-supplied output string s is threaded explicitly. -/
def GetHostname (gethostnameResult : Option String)
    (gethostbyname : String → Option String) (s : String) : Bool × String :=
  match gethostnameResult with
  | some hn =>
    match gethostbyname hn with
    | some canonical => (true, canonical)
    | none => (true, hn)
  | none => (false, s)

/-- Result of a reentrant user-database lookup (::getpwuid_r): the integer
return code, and the name field of the passwd record when the result pointer
is non-null (none models a null result pointer). -/
structure PwResult where
  retcode : Int
  pw_name : Option String
deriving DecidableEq, Repr

/-- PosixUserIDResolver::DoGetUserName, reentrant branch (the build without
USE_GETPWUID): call getpwuid_r; when it returns zero and the result pointer
is non-null, return the name field; otherwise return the empty optional. -/
def DoGetUserName (getpwuid_r : Nat → PwResult) (uid : Nat) : Option String :=
  let r := getpwuid_r uid
  if r.retcode = 0 then
    match r.pw_name with
    | some n => some n
    | none => none
  else none

/-- Result of a reentrant group-database lookup (::getgrgid_r): the integer
return code, and the name field of the group record when the result pointer
is non-null (none models a null result pointer). -/
structure GrResult where
  retcode : Int
  gr_name : Option String
deriving DecidableEq, Repr

/-- PosixUserIDResolver::DoGetGroupName, non-Android branch: call getgrgid_r;
on a zero return code return the name when the result pointer is non-null and
fall through to the empty optional when it is null; on a non-zero return code
retry with the non-reentrant ::getgrgid and return its name on success,
falling through to the empty optional otherwise. -/
def DoGetGroupName (getgrgid_r : Nat → GrResult)
    (getgrgid : Nat → Option String) (gid : Nat) : Option String :=
  let r := getgrgid_r gid
  if r.retcode = 0 then
    match r.gr_name with
    | some n => some n
    | none => none
  else
    match getgrgid gid with
    | some n => some n
    | none => none

/-- HostInfoPosix::ComputePathRelativeToLibrary. The shared-library directory
returned by GetShlibDir (host-info base, outside src/) is a parameter; the
output FileSpec is threaded explicitly, so the result pairs the returned bool
with the final state of file_spec. Logging is pure observation and is
omitted. -/
def ComputePathRelativeToLibrary (shlibDir : FileSpec) (file_spec : FileSpec)
    (dir : String) : Bool × FileSpec :=
  if !shlibDir.toBool then (false, file_spec)
  else
    let raw_path := shlibDir.getPath
    let parent_path := parentPath raw_path
    let raw_path2 := if !parent_path.isEmpty then parent_path ++ dir else raw_path
    let fs := { file_spec with directory := raw_path2 }
    (!fs.directory.isEmpty, fs)

/-- HostInfoPosix::ComputeSupportExeDirectory: derive the sibling bin
directory of the shared-library directory. -/
def ComputeSupportExeDirectory (shlibDir : FileSpec) (file_spec : FileSpec) :
    Bool × FileSpec :=
  ComputePathRelativeToLibrary shlibDir file_spec "/bin"

/-- HostInfoPosix::ComputeHeaderDirectory: build a FileSpec from the fixed
install path, write its full path into the output directory component, and
return true. -/
def ComputeHeaderDirectory (file_spec : FileSpec) : Bool × FileSpec :=
  let temp_file := FileSpec.ofPath "/opt/local/include/lldb"
  (true, { file_spec with directory := temp_file.getPath })

lemma string_empty_isEmpty : ("" : String).isEmpty = true := rfl

lemma string_isEmpty_eq_false_iff (s : String) : s.isEmpty = false ↔ s ≠ "" := by
  constructor
  · intro h hc
    subst hc
    simp [string_empty_isEmpty] at h
  · intro h
    cases hb : s.isEmpty with
    | false => rfl
    | true => exact absurd ((String.isEmpty_iff s).mp hb) h

lemma string_append_ne_empty_left (a b : String) (h : a ≠ "") : a ++ b ≠ "" := by
  intro hc
  apply h
  have h1 := congrArg String.data hc
  rw [String.data_append] at h1
  have h2 := List.append_eq_nil.mp h1
  exact String.ext h2.1

lemma FileSpec.getPath_ne_empty (f : FileSpec) (h : f.toBool = true) :
    f.getPath ≠ "" := by
  unfold FileSpec.getPath
  cases hd : f.directory.isEmpty with
  | true =>
    have hf : f.filename.isEmpty = false := by
      simp [FileSpec.toBool, hd] at h
      exact h
    simp [hd]
    exact (string_isEmpty_eq_false_iff _).mp hf
  | false =>
    have hdne : f.directory ≠ "" := (string_isEmpty_eq_false_iff _).mp hd
    cases hf : f.filename.isEmpty with
    | true => simp [hd, hf, hdne]
    | false =>
      by_cases he : f.directory.data.getLast? = some '/'
      · simp [hd, hf, he]
        exact string_append_ne_empty_left _ _ hdne
      · simp [hd, hf, he]
        exact string_append_ne_empty_left _ _
          (string_append_ne_empty_left _ _ hdne)

lemma computePath_parent_nonempty (shlibDir file_spec : FileSpec) (dir : String)
    (hpres : shlibDir.toBool = true)
    (hpar : parentPath shlibDir.getPath ≠ "") :
    ComputePathRelativeToLibrary shlibDir file_spec dir =
      (!(parentPath shlibDir.getPath ++ dir).isEmpty,
       { file_spec with directory := parentPath shlibDir.getPath ++ dir }) := by
  have hp : (parentPath shlibDir.getPath).isEmpty = false :=
    (string_isEmpty_eq_false_iff _).mpr hpar
  simp [ComputePathRelativeToLibrary, hpres, hp]

lemma computePath_parent_empty (shlibDir file_spec : FileSpec) (dir : String)
    (hpres : shlibDir.toBool = true)
    (hpar : parentPath shlibDir.getPath = "") :
    ComputePathRelativeToLibrary shlibDir file_spec dir =
      (true, { file_spec with directory := shlibDir.getPath }) := by
  have hne : shlibDir.getPath.isEmpty = false :=
    (string_isEmpty_eq_false_iff _).mpr (FileSpec.getPath_ne_empty shlibDir hpres)
  simp [ComputePathRelativeToLibrary, hpres, hpar, string_empty_isEmpty, hne]

/-- C1 counterexample: take the shared-library directory to be the root
directory. It is present and its textual parent is empty, yet
ComputePathRelativeToLibrary sets the output directory to the library path
itself (the root, a non-empty string) and returns true, instead of leaving
the directory empty and returning failure as the claim states. -/
theorem C1_counterexample :
    (FileSpec.ofPath "/").toBool = true ∧
    parentPath (FileSpec.ofPath "/").getPath = "" ∧
    ComputePathRelativeToLibrary (FileSpec.ofPath "/") ⟨"", ""⟩ "/bin" =
      (true, ⟨"/", ""⟩) := by
  decide

/-- C1 (amended): for every call to ComputePathRelativeToLibrary in which the
shared-library directory is present but its textual parent is empty, the
output's directory component is set to the shared-library directory's own
full path (which is non-empty) and the call returns success. -/
theorem C1_parent_empty_keeps_library_path (shlibDir file_spec : FileSpec)
    (dir : String) (hpres : shlibDir.toBool = true)
    (hpar : parentPath shlibDir.getPath = "") :
    ComputePathRelativeToLibrary shlibDir file_spec dir =
      (true, { file_spec with directory := shlibDir.getPath }) :=
  computePath_parent_empty shlibDir file_spec dir hpres hpar

/-- Witness for C1: the amended behaviour at the concrete root-directory
input. -/
theorem C1_witness :
    (FileSpec.ofPath "/").toBool = true ∧
    parentPath (FileSpec.ofPath "/").getPath = "" ∧
    ComputePathRelativeToLibrary (FileSpec.ofPath "/") ⟨"old", "f"⟩ "/bin" =
      (true, ⟨"/", "f"⟩) :=
  ⟨by decide, by decide,
   C1_parent_empty_keeps_library_path (FileSpec.ofPath "/") ⟨"old", "f"⟩ "/bin"
     (by decide) (by decide)⟩

/-- C2: when the shared-library directory is present and its textual parent
is non-empty, ComputePathRelativeToLibrary sets the output's directory to
the parent concatenated with the suffix and returns success iff that string
is non-empty; concretely, ComputeSupportExeDirectory from the library
directory /opt/llvm/lib/x86_64 yields output directory /opt/llvm/lib/bin and
returns true. -/
theorem C2_sibling_directory (shlibDir file_spec : FileSpec) (dir : String)
    (hpres : shlibDir.toBool = true)
    (hpar : parentPath shlibDir.getPath ≠ "") :
    ((ComputePathRelativeToLibrary shlibDir file_spec dir).2.directory =
        parentPath shlibDir.getPath ++ dir) ∧
    ((ComputePathRelativeToLibrary shlibDir file_spec dir).1 = true ↔
        parentPath shlibDir.getPath ++ dir ≠ "") ∧
    (∀ fs : FileSpec,
      ComputeSupportExeDirectory (FileSpec.ofPath "/opt/llvm/lib/x86_64") fs =
        (true, { fs with directory := "/opt/llvm/lib/bin" })) := by
  rw [computePath_parent_nonempty shlibDir file_spec dir hpres hpar]
  refine ⟨rfl, ?_, ?_⟩
  · simp [string_isEmpty_eq_false_iff]
  · intro fs
    have h1 : (FileSpec.ofPath "/opt/llvm/lib/x86_64").toBool = true := by decide
    have h2 : parentPath (FileSpec.ofPath "/opt/llvm/lib/x86_64").getPath ≠ "" := by
      decide
    rw [ComputeSupportExeDirectory,
      computePath_parent_nonempty _ fs "/bin" h1 h2]
    have h3 : parentPath (FileSpec.ofPath "/opt/llvm/lib/x86_64").getPath ++ "/bin" =
        "/opt/llvm/lib/bin" := by decide
    rw [h3]
    rfl

/-- Witness for C2: the sibling derivation at the concrete library directory
/opt/llvm/lib/x86_64 with suffix /bin. -/
theorem C2_witness :
    ((ComputePathRelativeToLibrary (FileSpec.ofPath "/opt/llvm/lib/x86_64")
        ⟨"", ""⟩ "/bin").2.directory =
      parentPath (FileSpec.ofPath "/opt/llvm/lib/x86_64").getPath ++ "/bin") ∧
    ((ComputePathRelativeToLibrary (FileSpec.ofPath "/opt/llvm/lib/x86_64")
        ⟨"", ""⟩ "/bin").1 = true ↔
      parentPath (FileSpec.ofPath "/opt/llvm/lib/x86_64").getPath ++ "/bin" ≠ "") ∧
    (∀ fs : FileSpec,
      ComputeSupportExeDirectory (FileSpec.ofPath "/opt/llvm/lib/x86_64") fs =
        (true, { fs with directory := "/opt/llvm/lib/bin" })) :=
  C2_sibling_directory (FileSpec.ofPath "/opt/llvm/lib/x86_64") ⟨"", ""⟩ "/bin"
    (by decide) (by decide)

/-- C3: when the shared-library directory cannot be obtained (the FileSpec
returned by the host-info base is not present), ComputePathRelativeToLibrary
returns failure and the output path handle is returned exactly as it came
in. -/
theorem C3_absent_library_unmodified (shlibDir file_spec : FileSpec)
    (dir : String) (habs : shlibDir.toBool = false) :
    ComputePathRelativeToLibrary shlibDir file_spec dir = (false, file_spec) := by
  simp [ComputePathRelativeToLibrary, habs]

/-- Witness for C3: the empty path gives an absent FileSpec and the output
handle keeps its previous directory and filename. -/
theorem C3_witness :
    ComputePathRelativeToLibrary (FileSpec.ofPath "") ⟨"keep", "me"⟩ "/bin" =
      (false, ⟨"keep", "me"⟩) :=
  C3_absent_library_unmodified (FileSpec.ofPath "") ⟨"keep", "me"⟩ "/bin"
    (by decide)

/-- C4: GetEnvironmentVar returns true iff the variable is set in the process
environment, and when it is set the value written to the output string equals
the environment's value for that name exactly. -/
theorem C4_environment_var (env : String → Option String) (name var : String) :
    ((GetEnvironmentVar env name var).1 = true ↔ (env name).isSome = true) ∧
    (∀ v, env name = some v → (GetEnvironmentVar env name var).2 = v) := by
  constructor
  · cases h : env name <;> simp [GetEnvironmentVar, h]
  · intro v hv
    simp [GetEnvironmentVar, hv]

/-- Witness for C4: a concrete environment where TEST_VAR is bound to hello
yields true and the value hello. -/
theorem C4_witness :
    (GetEnvironmentVar (fun n => if n = "TEST_VAR" then some "hello" else none)
      "TEST_VAR" "prev").1 = true ∧
    (GetEnvironmentVar (fun n => if n = "TEST_VAR" then some "hello" else none)
      "TEST_VAR" "prev").2 = "hello" :=
  ⟨(C4_environment_var (fun n => if n = "TEST_VAR" then some "hello" else none)
      "TEST_VAR" "prev").1.mpr (by decide),
   (C4_environment_var (fun n => if n = "TEST_VAR" then some "hello" else none)
      "TEST_VAR" "prev").2 "hello" (by decide)⟩

/-- C5: GetHostname fails iff the kernel node-name query itself fails; when
the kernel query succeeds it returns success, with the canonical name when
forward resolution succeeds and the raw node name otherwise. -/
theorem C5_hostname (gethostnameResult : Option String)
    (gethostbyname : String → Option String) (s : String) :
    ((GetHostname gethostnameResult gethostbyname s).1 = false ↔
        gethostnameResult = none) ∧
    (∀ hn, gethostnameResult = some hn →
      (GetHostname gethostnameResult gethostbyname s).1 = true ∧
      (GetHostname gethostnameResult gethostbyname s).2 =
        ((gethostbyname hn).getD hn)) := by
  constructor
  · cases h : gethostnameResult with
    | none => simp [GetHostname, h]
    | some hn => cases h2 : gethostbyname hn <;> simp [GetHostname, h, h2]
  · intro hn hhn
    subst hhn
    cases h2 : gethostbyname hn <;> simp [GetHostname, h2]

/-- Witness for C5: a concrete successful kernel query whose forward
resolution yields a canonical name. -/
theorem C5_witness :
    ((GetHostname (some "box") (fun _ => some "box.example.com") "s0").1 = false ↔
        (some "box" : Option String) = none) ∧
    (∀ hn, (some "box" : Option String) = some hn →
      (GetHostname (some "box") (fun _ => some "box.example.com") "s0").1 = true ∧
      (GetHostname (some "box") (fun _ => some "box.example.com") "s0").2 =
        (((fun _ => some "box.example.com") hn : Option String).getD hn)) :=
  C5_hostname (some "box") (fun _ => some "box.example.com") "s0"

/-- C6: DoGetGroupName returns the group name when the reentrant lookup
returns zero with a non-null result pointer; on a non-zero return code it
retries once with the non-reentrant variant and its result (the name on
success) is the result of the call; in all remaining outcomes (zero return
code with null result pointer) it returns the empty optional. -/
theorem C6_group_name (getgrgid_r : Nat → GrResult)
    (getgrgid : Nat → Option String) (gid : Nat) :
    ((getgrgid_r gid).retcode = 0 → ∀ n, (getgrgid_r gid).gr_name = some n →
      DoGetGroupName getgrgid_r getgrgid gid = some n) ∧
    ((getgrgid_r gid).retcode ≠ 0 →
      DoGetGroupName getgrgid_r getgrgid gid = getgrgid gid) ∧
    ((getgrgid_r gid).retcode = 0 → (getgrgid_r gid).gr_name = none →
      DoGetGroupName getgrgid_r getgrgid gid = none) := by
  refine ⟨?_, ?_, ?_⟩
  · intro h0 n hn
    simp [DoGetGroupName, h0, hn]
  · intro h0
    cases h2 : getgrgid gid <;> simp [DoGetGroupName, h0, h2]
  · intro h0 hn
    simp [DoGetGroupName, h0, hn]

/-- Witness for C6: a reentrant lookup that fails with a non-zero code and a
non-reentrant retry that succeeds with the name wheel. -/
theorem C6_witness :
    DoGetGroupName (fun _ => ⟨34, none⟩) (fun _ => some "wheel") 0 =
      (fun _ => some "wheel" : Nat → Option String) 0 :=
  (C6_group_name (fun _ => ⟨34, none⟩) (fun _ => some "wheel") 0).2.1 (by decide)

/-- C7: DoGetUserName treats a zero return code together with a non-null
result pointer as success, extracting the name field; in every other outcome
(zero code with null result pointer, or non-zero code) it returns the empty
optional, never an error. -/
theorem C7_user_name (getpwuid_r : Nat → PwResult) (uid : Nat) :
    ((getpwuid_r uid).retcode = 0 → ∀ n, (getpwuid_r uid).pw_name = some n →
      DoGetUserName getpwuid_r uid = some n) ∧
    ((getpwuid_r uid).retcode = 0 → (getpwuid_r uid).pw_name = none →
      DoGetUserName getpwuid_r uid = none) ∧
    ((getpwuid_r uid).retcode ≠ 0 → DoGetUserName getpwuid_r uid = none) := by
  refine ⟨?_, ?_, ?_⟩
  · intro h0 n hn
    simp [DoGetUserName, h0, hn]
  · intro h0 hn
    simp [DoGetUserName, h0, hn]
  · intro h0
    simp [DoGetUserName, h0]

/-- Witness for C7: an unassigned uid (the lookup succeeds with a null result
pointer) yields the empty optional. -/
theorem C7_witness :
    DoGetUserName (fun _ => ⟨0, none⟩) 4294967294 = none :=
  (C7_user_name (fun _ => ⟨0, none⟩) 4294967294).2.1 (by decide) (by decide)

/-- C8: ComputeHeaderDirectory sets the output's directory component to the
literal /opt/local/include/lldb and returns success, for every incoming value
of the output path handle, and the operation is idempotent. -/
theorem C8_header_directory (file_spec : FileSpec) :
    ComputeHeaderDirectory file_spec =
      (true, { file_spec with directory := "/opt/local/include/lldb" }) ∧
    ComputeHeaderDirectory (ComputeHeaderDirectory file_spec).2 =
      ComputeHeaderDirectory file_spec := by
  have h : (FileSpec.ofPath "/opt/local/include/lldb").getPath =
      "/opt/local/include/lldb" := by decide
  constructor
  · simp [ComputeHeaderDirectory, h]
  · simp [ComputeHeaderDirectory, h]

/-- C9: when the variable is not set in the process environment,
GetEnvironmentVar returns false and the caller-supplied output string is left
exactly as it was before the call. -/
theorem C9_env_unset_output_unchanged (env : String → Option String)
    (name var : String) (h : env name = none) :
    GetEnvironmentVar env name var = (false, var) := by
  simp [GetEnvironmentVar, h]

/-- Witness for C9: an empty environment leaves the previous contents of the
output string intact. -/
theorem C9_witness :
    GetEnvironmentVar (fun _ => none) "TEST_VAR" "previous-contents" =
      (false, "previous-contents") :=
  C9_env_unset_output_unchanged (fun _ => none) "TEST_VAR" "previous-contents"
    rfl

/-- C10: when the reentrant group lookup returns zero but the result pointer
is null, DoGetGroupName returns the empty optional for every possible
non-reentrant fallback, i.e. without the fallback being attempted; the
fallback can influence the result only on a non-zero return code. -/
theorem C10_null_result_no_fallback (getgrgid_r : Nat → GrResult) (gid : Nat)
    (h0 : (getgrgid_r gid).retcode = 0) (hn : (getgrgid_r gid).gr_name = none) :
    ∀ getgrgid : Nat → Option String,
      DoGetGroupName getgrgid_r getgrgid gid = none := by
  intro getgrgid
  simp [DoGetGroupName, h0, hn]

/-- Witness for C10: with a zero return code and null result pointer the
result is the empty optional even though the fallback would have produced a
name. -/
theorem C10_witness :
    DoGetGroupName (fun _ => ⟨0, none⟩) (fun _ => some "staff") 7 = none :=
  C10_null_result_no_fallback (fun _ => ⟨0, none⟩) 7 (by decide) (by decide)
    (fun _ => some "staff")
